import Mathlib

/-!
Verification of the BoltzPay CLI bridge layer (`langchain_boltzpay` and
`boltzpay_crewai` packages): a shallow embedding of the two subprocess
bridges (`bridge.py` in each package), their error classes (`errors.py`)
and the tool adapters' argument construction (`tools.py`), together with
theorems settling the specified properties of the bridge protocol and
error taxonomy.

The Python JSON parser (`json.loads`) and the operating-system facilities
(`shutil.which`, `subprocess.run` / `asyncio.create_subprocess_exec`) are
external library code, not part of this repository; they are modelled as
explicit parameters (`parse : String → Option Json`, `BridgeEnv`).  All
logic of the repository's own functions is embedded faithfully.
-/

set_option maxRecDepth 4000

/-- JSON values, the wire format written by the external CLI on its
standard output.  Objects are association lists; values produced by
`json.loads` have pairwise-distinct keys, and key lookup below returns the
first match. -/
inductive Json where
  | null : Json
  | bool (b : Bool) : Json
  | num (n : Int) : Json
  | str (s : String) : Json
  | arr (elems : List Json) : Json
  | obj (fields : List (String × Json)) : Json

/-- Key lookup in a JSON object's field list (Python `dict` access). -/
def lookupJ (fields : List (String × Json)) (key : String) : Option Json :=
  match fields with
  | [] => none
  | (k, v) :: rest => if k = key then some v else lookupJ rest key

/-- Characters removed by Python's `str.strip()` (ASCII whitespace:
space, tab, newline, carriage return, vertical tab, form feed). -/
def pyIsSpace (c : Char) : Bool :=
  c = ' ' || c = '\t' || c = '\n' || c = '\r' ||
  c = Char.ofNat 11 || c = Char.ofNat 12

/-- Python's `str.strip()`: drop whitespace from both ends. -/
def pyStrip (s : String) : String :=
  String.mk (((s.data.dropWhile pyIsSpace).reverse.dropWhile pyIsSpace).reverse)

/-- Outcome of a completed subprocess: `subprocess.run`'s result
(`returncode`, decoded `stdout`, decoded `stderr`), equally the data
available after `proc.communicate()` on the async paths. -/
structure ProcOutcome where
  returncode : Int
  stdout : String
  stderr : String
deriving DecidableEq

/-- Result of one bridge call: the returned parsed JSON (`ok`), a raised
`BoltzPayBridgeError` carrying its `code` and `message` constructor
arguments (`err` — the arguments are JSON values because the error
envelope's `code`/`message` entries are forwarded as-is), or an uncaught
Python-level exception (`pythonError`, an `AttributeError` reachable in
`langchain_boltzpay` when the `error` entry of a failure envelope is not
an object). -/
inductive BridgeOutcome where
  | ok (v : Json) : BridgeOutcome
  | err (code message : Json) : BridgeOutcome
  | pythonError : BridgeOutcome

/-- The `code` carried by an `err` outcome, if any. -/
def outcomeCode : BridgeOutcome → Option Json
  | BridgeOutcome.err c _ => some c
  | _ => none

/-- Whether the outcome is a raised bridge error. -/
def isErr : BridgeOutcome → Bool
  | BridgeOutcome.err _ _ => true
  | _ => false

/-- `langchain_boltzpay/bridge.py`, lines 57–78 (and the textually
identical lines 120–140 of `async_run_cli`): post-completion processing.
`stdout = result.stdout.strip()`; `json.loads` failure falls back to
stripped stderr, or to `"CLI exited with code {returncode}"` when that is
empty; a parsed dict with `success is False` raises with the envelope's
`error.code` / `error.message` (defaults `"UNKNOWN"` /
`"Unknown CLI error"`, via `data.get("error", {})`); anything else is
returned verbatim. -/
def lcParseOutcome (parse : String → Option Json) (r : ProcOutcome) : BridgeOutcome :=
  match parse (pyStrip r.stdout) with
  | none =>
      let stderr := pyStrip r.stderr
      BridgeOutcome.err (Json.str "CLI_ERROR")
        (Json.str (if stderr = "" then "CLI exited with code " ++ toString r.returncode
                   else stderr))
  | some data =>
      match data with
      | Json.obj fields =>
          match lookupJ fields "success" with
          | some (Json.bool false) =>
              match lookupJ fields "error" with
              | none =>
                  BridgeOutcome.err (Json.str "UNKNOWN") (Json.str "Unknown CLI error")
              | some (Json.obj efields) =>
                  BridgeOutcome.err ((lookupJ efields "code").getD (Json.str "UNKNOWN"))
                    ((lookupJ efields "message").getD (Json.str "Unknown CLI error"))
              | some _ => BridgeOutcome.pythonError
          | _ => BridgeOutcome.ok (Json.obj fields)
      | other => BridgeOutcome.ok other

/-- `boltzpay_crewai/bridge.py`, lines 70–71 (and 114–115):
`err["error"]["code"]`, `err["error"]["message"]`.  Returns the pair when
both subscripts succeed; `none` models the `KeyError` / `TypeError` cases
that the surrounding `except` clause catches. -/
def cwErrEnvelope (j : Json) : Option (Json × Json) :=
  match j with
  | Json.obj fields =>
      match lookupJ fields "error" with
      | some (Json.obj efields) =>
          match lookupJ efields "code", lookupJ efields "message" with
          | some c, some m => some (c, m)
          | _, _ => none
      | _ => none
  | _ => none

/-- `boltzpay_crewai/bridge.py`, lines 67–78 (and the equivalent lines
109–122 of `async_run_cli`): post-completion processing.  A non-zero exit
code first tries the structured error envelope of stdout, falling back to
`CLI_ERROR` with the raw stderr or `"Unknown error"`; a zero exit code
returns parsed stdout, or raises `PARSE_ERROR` with the first 200
characters of stdout when parsing fails. -/
def cwParseOutcome (parse : String → Option Json) (r : ProcOutcome) : BridgeOutcome :=
  if r.returncode ≠ 0 then
    match parse r.stdout with
    | some e =>
        match cwErrEnvelope e with
        | some (c, m) => BridgeOutcome.err c m
        | none =>
            BridgeOutcome.err (Json.str "CLI_ERROR")
              (Json.str (if r.stderr = "" then "Unknown error" else r.stderr))
    | none =>
        BridgeOutcome.err (Json.str "CLI_ERROR")
          (Json.str (if r.stderr = "" then "Unknown error" else r.stderr))
  else
    match parse r.stdout with
    | some v => BridgeOutcome.ok v
    | none =>
        BridgeOutcome.err (Json.str "PARSE_ERROR")
          (Json.str ("Invalid JSON output: " ++ r.stdout.take 200))

/-- Behaviour of the process-spawning call (`subprocess.run` with
`capture_output=True, text=True, timeout=timeout`, or
`asyncio.create_subprocess_exec` + `asyncio.wait_for(proc.communicate(),
timeout)`) on one command line: the spawn raises `FileNotFoundError`, the
wait exceeds the timeout, or the process completes with an outcome. -/
inductive SpawnBehavior where
  | fileNotFound : SpawnBehavior
  | timedOut : SpawnBehavior
  | completed (r : ProcOutcome) : SpawnBehavior

/-- The operating-system environment a bridge call runs in:
`shutil.which("npx")`'s answer and the behaviour of spawning each
command line. -/
structure BridgeEnv where
  whichNpx : Option String
  spawn : List String → SpawnBehavior

/-- Observable process-management events of one bridge call, used to state
that no subprocess is spawned on the `NODE_NOT_FOUND` path and that the
async timeout path kills and then reaps the child. -/
inductive Event where
  | spawned (cmd : List String) : Event
  | killed : Event
  | waited : Event
deriving DecidableEq

/-- Command-line construction, `langchain_boltzpay/bridge.py` line 43 /
`boltzpay_crewai/bridge.py` line 52 (textually identical):
`[npx, "-y", "@boltzpay/cli", command, *(args or []), "--json"]`.
Python's `args or []` splats to the same elements for `None` and `[]`, so
the argument list is modelled as a plain list. -/
def buildCmd (npx command : String) (args : List String) : List String :=
  [npx, "-y", "@boltzpay/cli", command] ++ args ++ ["--json"]

/-- `BoltzPayNodeNotFoundError` message, `langchain_boltzpay/errors.py`
lines 16–23. -/
def lcNodeNotFoundMsg : String :=
  "Node.js/npx not found. Install Node.js 20+ from https://nodejs.org or use the MCP server: npx @boltzpay/mcp"

/-- `BoltzPayNodeNotFoundError` message, `boltzpay_crewai/errors.py`
lines 16–21 (the same text as the langchain package's). -/
def cwNodeNotFoundMsg : String :=
  "Node.js/npx not found. Install Node.js 20+ from https://nodejs.org or use the MCP server: npx @boltzpay/mcp"

/-- `BoltzPayTimeoutError` message, `langchain_boltzpay/errors.py`
line 32. -/
def lcTimeoutMsg (timeout : Int) : String :=
  "BoltzPay CLI command timed out after " ++ toString timeout ++ " seconds"

/-- `BoltzPayTimeoutError` message, `boltzpay_crewai/errors.py`
line 28. -/
def cwTimeoutMsg (timeout : Int) : String :=
  "CLI command timed out after " ++ toString timeout ++ "s"

/-- `langchain_boltzpay/bridge.py`, `run_cli` (lines 26–78): resolve
`npx` (raising `NODE_NOT_FOUND` before any spawn when absent), build the
command line, spawn, and map the three spawn behaviours onto the typed
outcome, delegating completed processes to `lcParseOutcome`.  Returns the
outcome together with the trace of process-management events. -/
def lcRunCli (env : BridgeEnv) (parse : String → Option Json)
    (command : String) (args : List String) (timeout : Int) :
    BridgeOutcome × List Event :=
  match env.whichNpx with
  | none => (BridgeOutcome.err (Json.str "NODE_NOT_FOUND") (Json.str lcNodeNotFoundMsg), [])
  | some npx =>
      let cmd := buildCmd npx command args
      match env.spawn cmd with
      | SpawnBehavior.fileNotFound =>
          (BridgeOutcome.err (Json.str "NODE_NOT_FOUND") (Json.str lcNodeNotFoundMsg),
           [Event.spawned cmd])
      | SpawnBehavior.timedOut =>
          (BridgeOutcome.err (Json.str "TIMEOUT") (Json.str (lcTimeoutMsg timeout)),
           [Event.spawned cmd])
      | SpawnBehavior.completed r => (lcParseOutcome parse r, [Event.spawned cmd])

/-- `langchain_boltzpay/bridge.py`, `async_run_cli` (lines 81–140): as
`lcRunCli`, except that on timeout the child is killed (`proc.kill()`)
and reaped (`await proc.wait()`) before the `TIMEOUT` error is raised. -/
def lcAsyncRunCli (env : BridgeEnv) (parse : String → Option Json)
    (command : String) (args : List String) (timeout : Int) :
    BridgeOutcome × List Event :=
  match env.whichNpx with
  | none => (BridgeOutcome.err (Json.str "NODE_NOT_FOUND") (Json.str lcNodeNotFoundMsg), [])
  | some npx =>
      let cmd := buildCmd npx command args
      match env.spawn cmd with
      | SpawnBehavior.fileNotFound =>
          (BridgeOutcome.err (Json.str "NODE_NOT_FOUND") (Json.str lcNodeNotFoundMsg),
           [Event.spawned cmd])
      | SpawnBehavior.timedOut =>
          (BridgeOutcome.err (Json.str "TIMEOUT") (Json.str (lcTimeoutMsg timeout)),
           [Event.spawned cmd, Event.killed, Event.waited])
      | SpawnBehavior.completed r => (lcParseOutcome parse r, [Event.spawned cmd])

/-- `boltzpay_crewai/bridge.py`, `run_cli` (lines 25–78): same spawn
phase, delegating completed processes to `cwParseOutcome`. -/
def cwRunCli (env : BridgeEnv) (parse : String → Option Json)
    (command : String) (args : List String) (timeout : Int) :
    BridgeOutcome × List Event :=
  match env.whichNpx with
  | none => (BridgeOutcome.err (Json.str "NODE_NOT_FOUND") (Json.str cwNodeNotFoundMsg), [])
  | some npx =>
      let cmd := buildCmd npx command args
      match env.spawn cmd with
      | SpawnBehavior.fileNotFound =>
          (BridgeOutcome.err (Json.str "NODE_NOT_FOUND") (Json.str cwNodeNotFoundMsg),
           [Event.spawned cmd])
      | SpawnBehavior.timedOut =>
          (BridgeOutcome.err (Json.str "TIMEOUT") (Json.str (cwTimeoutMsg timeout)),
           [Event.spawned cmd])
      | SpawnBehavior.completed r => (cwParseOutcome parse r, [Event.spawned cmd])

/-- `boltzpay_crewai/bridge.py`, `async_run_cli` (lines 81–122): as
`cwRunCli`, with kill-and-reap before the `TIMEOUT` error on the timeout
path. -/
def cwAsyncRunCli (env : BridgeEnv) (parse : String → Option Json)
    (command : String) (args : List String) (timeout : Int) :
    BridgeOutcome × List Event :=
  match env.whichNpx with
  | none => (BridgeOutcome.err (Json.str "NODE_NOT_FOUND") (Json.str cwNodeNotFoundMsg), [])
  | some npx =>
      let cmd := buildCmd npx command args
      match env.spawn cmd with
      | SpawnBehavior.fileNotFound =>
          (BridgeOutcome.err (Json.str "NODE_NOT_FOUND") (Json.str cwNodeNotFoundMsg),
           [Event.spawned cmd])
      | SpawnBehavior.timedOut =>
          (BridgeOutcome.err (Json.str "TIMEOUT") (Json.str (cwTimeoutMsg timeout)),
           [Event.spawned cmd, Event.killed, Event.waited])
      | SpawnBehavior.completed r => (cwParseOutcome parse r, [Event.spawned cmd])

/-- `langchain_boltzpay/tools.py`, `BoltzPayFetchTool._run` /
`BoltzPayFetchTool._arun` (lines 66–78): `cli_args = [url, "--method",
method]`, then `if chain: cli_args.extend(["--chain", chain])` — Python
truthiness, so `None` and the empty string both skip the flag. -/
def lcFetchArgs (url method : String) (chain : Option String) : List String :=
  match chain with
  | some c => if c = "" then [url, "--method", method]
              else [url, "--method", method] ++ ["--chain", c]
  | none => [url, "--method", method]

/-- `langchain_boltzpay/tools.py`, `BoltzPayCheckTool` (lines 92–98):
arguments `[url]`. -/
def lcCheckArgs (url : String) : List String := [url]

/-- `langchain_boltzpay/tools.py`, `BoltzPayQuoteTool` (lines 112–118):
arguments `[url]`. -/
def lcQuoteArgs (url : String) : List String := [url]

/-- `langchain_boltzpay/tools.py`, `BoltzPayDiscoverTool` (lines
132–144): `cli_args = []`, then `if category:
cli_args.extend(["--category", category])`. -/
def lcDiscoverArgs (category : Option String) : List String :=
  match category with
  | some c => if c = "" then [] else ["--category", c]
  | none => []

/-- `langchain_boltzpay/tools.py`, `BoltzPayBudgetTool` (lines 157–163):
`run_cli("budget")`, i.e. no arguments. -/
def lcBudgetArgs : List String := []

/-- `langchain_boltzpay/tools.py`, `BoltzPayHistoryTool` (lines
176–182). -/
def lcHistoryArgs : List String := []

/-- `langchain_boltzpay/tools.py`, `BoltzPayWalletTool` (lines
195–201). -/
def lcWalletArgs : List String := []

/-- `boltzpay_crewai/tools.py`, `BoltzPayFetchTool._run` (lines 85–89):
the same construction as the langchain package's. -/
def cwFetchArgs (url method : String) (chain : Option String) : List String :=
  match chain with
  | some c => if c = "" then [url, "--method", method]
              else [url, "--method", method] ++ ["--chain", c]
  | none => [url, "--method", method]

/-- `boltzpay_crewai/tools.py`, `BoltzPayCheckTool._run` (lines
102–103). -/
def cwCheckArgs (url : String) : List String := [url]

/-- `boltzpay_crewai/tools.py`, `BoltzPayQuoteTool._run` (lines
116–117). -/
def cwQuoteArgs (url : String) : List String := [url]

/-- `boltzpay_crewai/tools.py`, `BoltzPayDiscoverTool._run` (lines
130–134). -/
def cwDiscoverArgs (category : Option String) : List String :=
  match category with
  | some c => if c = "" then [] else ["--category", c]
  | none => []

/-- `boltzpay_crewai/tools.py`, `BoltzPayBudgetTool._run` (lines
145–146): `_safe_run("budget", [])`. -/
def cwBudgetArgs : List String := []

/-- `boltzpay_crewai/tools.py`, `BoltzPayHistoryTool._run` (lines
158–159). -/
def cwHistoryArgs : List String := []

/-- `boltzpay_crewai/tools.py`, `BoltzPayWalletTool._run` (lines
171–172). -/
def cwWalletArgs : List String := []

/-- The string form (`str(exc)`) of a `langchain_boltzpay`
`BoltzPayBridgeError`: its constructor calls `super().__init__(message)`
(`errors.py` line 10), so `Exception.__str__` yields the message alone —
the code is stored only as an attribute. -/
def lcErrorStrForm (_code message : String) : String := message

/-- The string form (`str(exc)`) of a `boltzpay_crewai`
`BoltzPayBridgeError`: its constructor calls
`super().__init__(f"{code}: {message}")` (`errors.py` line 10). -/
def cwErrorStrForm (code message : String) : String := code ++ ": " ++ message

/-- `boltzpay_crewai/tools.py`, `_safe_run` (lines 59–65): the string a
CrewAI tool returns for a caught `BoltzPayBridgeError`,
`f"Error ({exc.code}): {exc.message}"`. -/
def cwSafeRunErrorText (code message : String) : String :=
  "Error (" ++ code ++ "): " ++ message

/-- `s` contains `sub` as a contiguous substring. -/
def containsStr (s sub : String) : Prop :=
  ∃ pre post : String, s = pre ++ sub ++ post

/-- Whether an optional JSON value is the literal `true`
(Python `value is True` on a parsed field). -/
def isTrueVal : Option Json → Bool
  | some (Json.bool true) => true
  | _ => false

/-- Whether an optional JSON value is an object or `null`
(the wire contract's `payment: object|null`). -/
def isObjOrNull : Option Json → Bool
  | some (Json.obj _) => true
  | some Json.null => true
  | _ => false

/-- Whether an optional JSON value is an object. -/
def isObjVal : Option Json → Bool
  | some (Json.obj _) => true
  | _ => false

/-- The keys of the wire contract's success envelope
`{success:true, data:any, payment:object|null, metadata:object}`. -/
def envKeyOk (k : String) : Bool :=
  k == "success" || k == "data" || k == "payment" || k == "metadata"

/-- A well-formed success envelope under the wire contract of §6 of the
spec: an object whose `success` is `true`, with a `data` entry, a
`payment` entry that is an object or `null`, a `metadata` object, and no
other keys. -/
def isSuccessEnvelope (j : Json) : Bool :=
  match j with
  | Json.obj fields =>
      isTrueVal (lookupJ fields "success") &&
      (lookupJ fields "data").isSome &&
      isObjOrNull (lookupJ fields "payment") &&
      isObjVal (lookupJ fields "metadata") &&
      fields.all (fun kv => envKeyOk kv.1)
  | _ => false

/-- The exact `AUTH_MISSING` failure envelope of the spec's §8 scenario,
as a parsed JSON value. -/
def authEnvelope : Json :=
  Json.obj [("success", Json.bool false),
    ("error", Json.obj [("code", Json.str "AUTH_MISSING"),
                        ("message", Json.str "Coinbase credentials not configured")])]

/-- A concrete well-formed success envelope. -/
def successEnvelope0 : Json :=
  Json.obj [("success", Json.bool true), ("data", Json.num 7),
            ("payment", Json.null), ("metadata", Json.obj [])]

/-- A concrete stand-in for `json.loads` that parses every text to the
`AUTH_MISSING` failure envelope. -/
def parseAuth : String → Option Json := fun _ => some authEnvelope

/-- A concrete stand-in for `json.loads` that rejects every text. -/
def parseNone : String → Option Json := fun _ => none

/-- A concrete stand-in for `json.loads` that parses every text to
`successEnvelope0`. -/
def parseSuccess0 : String → Option Json := fun _ => some successEnvelope0

/-- A concrete environment in which `shutil.which("npx")` finds
nothing. -/
def envNoNpx : BridgeEnv :=
  ⟨none, fun _ => SpawnBehavior.completed ⟨0, "", ""⟩⟩

/-- A concrete environment in which every spawned process exceeds its
timeout. -/
def envTimeout : BridgeEnv :=
  ⟨some "/usr/local/bin/npx", fun _ => SpawnBehavior.timedOut⟩

theorem isTrueVal_eq {o : Option Json} (h : isTrueVal o = true) :
    o = some (Json.bool true) := by
  rcases o with _ | j
  · simp [isTrueVal] at h
  · rcases j with _ | b | n | s | es | fs
    · simp [isTrueVal] at h
    · cases b
      · simp [isTrueVal] at h
      · rfl
    · simp [isTrueVal] at h
    · simp [isTrueVal] at h
    · simp [isTrueVal] at h
    · simp [isTrueVal] at h

theorem lookupJ_error_eq_none (fields : List (String × Json))
    (h : fields.all (fun kv => envKeyOk kv.1) = true) :
    lookupJ fields "error" = none := by
  induction fields with
  | nil => rfl
  | cons kv rest ih =>
      rw [List.all_cons, Bool.and_eq_true] at h
      obtain ⟨h1, h2⟩ := h
      obtain ⟨k, v⟩ := kv
      simp only [envKeyOk, Bool.or_eq_true, beq_iff_eq] at h1
      have hk : k ≠ "error" := by
        rcases h1 with ((h1 | h1) | h1) | h1 <;> subst h1 <;> decide
      simp [lookupJ, hk, ih h2]

theorem isSuccessEnvelope_elim {j : Json} (h : isSuccessEnvelope j = true) :
    ∃ fields, j = Json.obj fields ∧
      lookupJ fields "success" = some (Json.bool true) ∧
      lookupJ fields "error" = none := by
  rcases j with _ | b | n | s | es | fields
  · simp [isSuccessEnvelope] at h
  · simp [isSuccessEnvelope] at h
  · simp [isSuccessEnvelope] at h
  · simp [isSuccessEnvelope] at h
  · simp [isSuccessEnvelope] at h
  · simp only [isSuccessEnvelope, Bool.and_eq_true] at h
    obtain ⟨⟨⟨⟨htrue, _⟩, _⟩, _⟩, hall⟩ := h
    exact ⟨fields, rfl, isTrueVal_eq htrue, lookupJ_error_eq_none fields hall⟩

theorem not_containsStr_of_longer {s sub : String} (h : s.length < sub.length) :
    ¬ containsStr s sub := by
  rintro ⟨pre, post, heq⟩
  rw [heq, String.length_append, String.length_append] at h
  omega

/-- C1 counterexample: the claim says that an `AUTH_MISSING` failure
envelope on stdout makes the call fail regardless of exit code, in either
package; but `boltzpay_crewai.bridge.run_cli` with exit code `0` returns
the parsed failure envelope as a success result and raises nothing. -/
theorem c1_crewai_zero_exit_returns_error_envelope :
    cwParseOutcome parseAuth ⟨0, "x", ""⟩ = BridgeOutcome.ok authEnvelope ∧
    outcomeCode (cwParseOutcome parseAuth ⟨0, "x", ""⟩) ≠ some (Json.str "AUTH_MISSING") := by
  refine ⟨rfl, fun h => ?_⟩
  rw [show outcomeCode (cwParseOutcome parseAuth ⟨0, "x", ""⟩) = none from rfl] at h
  exact Option.noConfusion h

/-- C1 (amended): when stdout parses as the `AUTH_MISSING` failure
envelope, the langchain bridge (sync and async) fails with code
`AUTH_MISSING` and exactly the message `"Coinbase credentials not
configured"` regardless of exit code; the crewai bridge does so only when
the exit code is non-zero, and with exit code zero returns the parsed
failure envelope as a success result. -/
theorem c1_auth_missing_envelope (parse : String → Option Json) (r : ProcOutcome)
    (hs : parse (pyStrip r.stdout) = some authEnvelope)
    (hr : parse r.stdout = some authEnvelope) :
    lcParseOutcome parse r =
      BridgeOutcome.err (Json.str "AUTH_MISSING")
        (Json.str "Coinbase credentials not configured") ∧
    (r.returncode ≠ 0 → cwParseOutcome parse r =
      BridgeOutcome.err (Json.str "AUTH_MISSING")
        (Json.str "Coinbase credentials not configured")) ∧
    (r.returncode = 0 → cwParseOutcome parse r = BridgeOutcome.ok authEnvelope) := by
  refine ⟨?_, fun h0 => ?_, fun h0 => ?_⟩
  · simp [lcParseOutcome, hs, authEnvelope, lookupJ]
  · simp [cwParseOutcome, h0, hr, cwErrEnvelope, authEnvelope, lookupJ]
  · simp [cwParseOutcome, h0, hr]

/-- Witness for C1 (amended) at a concrete parse function and process
outcome with exit code 1. -/
theorem c1_auth_missing_envelope_witness :
    lcParseOutcome parseAuth ⟨1, "x", ""⟩ =
      BridgeOutcome.err (Json.str "AUTH_MISSING")
        (Json.str "Coinbase credentials not configured") ∧
    ((1 : Int) ≠ 0 → cwParseOutcome parseAuth ⟨1, "x", ""⟩ =
      BridgeOutcome.err (Json.str "AUTH_MISSING")
        (Json.str "Coinbase credentials not configured")) ∧
    ((1 : Int) = 0 → cwParseOutcome parseAuth ⟨1, "x", ""⟩ = BridgeOutcome.ok authEnvelope) :=
  c1_auth_missing_envelope parseAuth ⟨1, "x", ""⟩ rfl rfl

/-- C2 counterexample: the claim says unparseable stdout always yields
code `CLI_ERROR` with the stderr text (or the exit code when stderr is
empty); but `boltzpay_crewai.bridge.run_cli` with exit code `0`,
unparseable stdout and non-empty stderr raises `PARSE_ERROR`, not
`CLI_ERROR`, and its message quotes stdout, not stderr. -/
theorem c2_crewai_zero_exit_parse_error :
    cwParseOutcome parseNone ⟨0, "notjson", "boom"⟩ =
      BridgeOutcome.err (Json.str "PARSE_ERROR") (Json.str "Invalid JSON output: notjson") ∧
    outcomeCode (cwParseOutcome parseNone ⟨0, "notjson", "boom"⟩) ≠
      some (Json.str "CLI_ERROR") := by
  refine ⟨rfl, fun h => ?_⟩
  rw [show outcomeCode (cwParseOutcome parseNone ⟨0, "notjson", "boom"⟩)
        = some (Json.str "PARSE_ERROR") from rfl] at h
  injection h with h1
  injection h1 with h2
  exact absurd h2 (by decide)

/-- C2 (amended): for unparseable stdout, the langchain bridge (sync and
async) fails with `CLI_ERROR`, the message being the whitespace-stripped
stderr when that is non-empty and `"CLI exited with code N"` otherwise;
the crewai bridge with a non-zero exit code fails with `CLI_ERROR` and
the raw stderr, falling back to `"Unknown error"` (which does not contain
the exit code) when stderr is empty, and with a zero exit code fails with
`PARSE_ERROR` quoting the first 200 characters of stdout. -/
theorem c2_unparseable_stdout (parse : String → Option Json) (r : ProcOutcome)
    (hs : parse (pyStrip r.stdout) = none)
    (hr : parse r.stdout = none) :
    (pyStrip r.stderr ≠ "" →
      lcParseOutcome parse r =
        BridgeOutcome.err (Json.str "CLI_ERROR") (Json.str (pyStrip r.stderr))) ∧
    (pyStrip r.stderr = "" →
      lcParseOutcome parse r =
        BridgeOutcome.err (Json.str "CLI_ERROR")
          (Json.str ("CLI exited with code " ++ toString r.returncode))) ∧
    (r.returncode ≠ 0 → r.stderr ≠ "" →
      cwParseOutcome parse r =
        BridgeOutcome.err (Json.str "CLI_ERROR") (Json.str r.stderr)) ∧
    (r.returncode ≠ 0 → r.stderr = "" →
      cwParseOutcome parse r =
        BridgeOutcome.err (Json.str "CLI_ERROR") (Json.str "Unknown error")) ∧
    (r.returncode = 0 →
      cwParseOutcome parse r =
        BridgeOutcome.err (Json.str "PARSE_ERROR")
          (Json.str ("Invalid JSON output: " ++ r.stdout.take 200))) := by
  refine ⟨fun he => ?_, fun he => ?_, fun h0 he => ?_, fun h0 he => ?_, fun h0 => ?_⟩
  · simp [lcParseOutcome, hs, he]
  · simp [lcParseOutcome, hs, he]
  · simp [cwParseOutcome, h0, hr, he]
  · simp [cwParseOutcome, h0, hr, he]
  · simp [cwParseOutcome, h0, hr]

/-- Witness for C2 (amended) at a concrete parse function and process
outcome. -/
theorem c2_unparseable_stdout_witness :
    (pyStrip "bang" ≠ "" →
      lcParseOutcome parseNone ⟨1, "oops", "bang"⟩ =
        BridgeOutcome.err (Json.str "CLI_ERROR") (Json.str (pyStrip "bang"))) ∧
    (pyStrip "bang" = "" →
      lcParseOutcome parseNone ⟨1, "oops", "bang"⟩ =
        BridgeOutcome.err (Json.str "CLI_ERROR")
          (Json.str ("CLI exited with code " ++ toString (1 : Int)))) ∧
    ((1 : Int) ≠ 0 → "bang" ≠ "" →
      cwParseOutcome parseNone ⟨1, "oops", "bang"⟩ =
        BridgeOutcome.err (Json.str "CLI_ERROR") (Json.str "bang")) ∧
    ((1 : Int) ≠ 0 → "bang" = "" →
      cwParseOutcome parseNone ⟨1, "oops", "bang"⟩ =
        BridgeOutcome.err (Json.str "CLI_ERROR") (Json.str "Unknown error")) ∧
    ((1 : Int) = 0 →
      cwParseOutcome parseNone ⟨1, "oops", "bang"⟩ =
        BridgeOutcome.err (Json.str "PARSE_ERROR")
          (Json.str ("Invalid JSON output: " ++ "oops".take 200))) :=
  c2_unparseable_stdout parseNone ⟨1, "oops", "bang"⟩ rfl rfl

/-- C3: a non-zero exit code with a well-formed success envelope on
stdout makes the two sync bridges disagree: the langchain bridge returns
it as a success result, while the crewai bridge raises a
`BoltzPayBridgeError` (`CLI_ERROR`, since the envelope has no `error`
entry to forward). -/
theorem c3_nonzero_exit_divergence (parse : String → Option Json) (r : ProcOutcome)
    (j : Json)
    (hj : isSuccessEnvelope j = true)
    (hs : parse (pyStrip r.stdout) = some j)
    (hr : parse r.stdout = some j)
    (hrc : r.returncode ≠ 0) :
    lcParseOutcome parse r = BridgeOutcome.ok j ∧
    isErr (cwParseOutcome parse r) = true ∧
    cwParseOutcome parse r =
      BridgeOutcome.err (Json.str "CLI_ERROR")
        (Json.str (if r.stderr = "" then "Unknown error" else r.stderr)) := by
  obtain ⟨fields, rfl, hsucc, herr⟩ := isSuccessEnvelope_elim hj
  refine ⟨?_, ?_, ?_⟩
  · simp [lcParseOutcome, hs, hsucc]
  · simp [cwParseOutcome, hrc, hr, cwErrEnvelope, herr, isErr]
  · simp [cwParseOutcome, hrc, hr, cwErrEnvelope, herr]

/-- Witness for C3 at a concrete success envelope and exit code 1. -/
theorem c3_nonzero_exit_divergence_witness :
    isSuccessEnvelope successEnvelope0 = true ∧
    (lcParseOutcome parseSuccess0 ⟨1, "s", "bad"⟩ = BridgeOutcome.ok successEnvelope0 ∧
     isErr (cwParseOutcome parseSuccess0 ⟨1, "s", "bad"⟩) = true ∧
     cwParseOutcome parseSuccess0 ⟨1, "s", "bad"⟩ =
       BridgeOutcome.err (Json.str "CLI_ERROR")
         (Json.str (if "bad" = "" then "Unknown error" else "bad"))) :=
  ⟨rfl, c3_nonzero_exit_divergence parseSuccess0 ⟨1, "s", "bad"⟩ successEnvelope0
    rfl rfl rfl (by decide)⟩

/-- C4: when `shutil.which("npx")` finds nothing, every bridge entry
point of both packages — and hence every one of the seven tools, which
all call into these four functions — fails with the
`BoltzPayNodeNotFoundError` data (code `NODE_NOT_FOUND` and the
remediation message), and its event trace is empty: the process-spawn
function is never reached. -/
theorem c4_node_not_found_no_spawn (env : BridgeEnv) (parse : String → Option Json)
    (command : String) (args : List String) (timeout : Int)
    (h : env.whichNpx = none) :
    lcRunCli env parse command args timeout =
      (BridgeOutcome.err (Json.str "NODE_NOT_FOUND") (Json.str lcNodeNotFoundMsg), []) ∧
    lcAsyncRunCli env parse command args timeout =
      (BridgeOutcome.err (Json.str "NODE_NOT_FOUND") (Json.str lcNodeNotFoundMsg), []) ∧
    cwRunCli env parse command args timeout =
      (BridgeOutcome.err (Json.str "NODE_NOT_FOUND") (Json.str cwNodeNotFoundMsg), []) ∧
    cwAsyncRunCli env parse command args timeout =
      (BridgeOutcome.err (Json.str "NODE_NOT_FOUND") (Json.str cwNodeNotFoundMsg), []) := by
  refine ⟨?_, ?_, ?_, ?_⟩ <;>
    simp [lcRunCli, lcAsyncRunCli, cwRunCli, cwAsyncRunCli, h]

/-- Witness for C4 in a concrete environment without `npx`. -/
theorem c4_node_not_found_no_spawn_witness :
    lcRunCli envNoNpx parseNone "fetch" ["https://x/api"] 30 =
      (BridgeOutcome.err (Json.str "NODE_NOT_FOUND") (Json.str lcNodeNotFoundMsg), []) ∧
    lcAsyncRunCli envNoNpx parseNone "fetch" ["https://x/api"] 30 =
      (BridgeOutcome.err (Json.str "NODE_NOT_FOUND") (Json.str lcNodeNotFoundMsg), []) ∧
    cwRunCli envNoNpx parseNone "fetch" ["https://x/api"] 30 =
      (BridgeOutcome.err (Json.str "NODE_NOT_FOUND") (Json.str cwNodeNotFoundMsg), []) ∧
    cwAsyncRunCli envNoNpx parseNone "fetch" ["https://x/api"] 30 =
      (BridgeOutcome.err (Json.str "NODE_NOT_FOUND") (Json.str cwNodeNotFoundMsg), []) :=
  c4_node_not_found_no_spawn envNoNpx parseNone "fetch" ["https://x/api"] 30 rfl

/-- C5: when the subprocess exceeds the timeout, every bridge entry point
fails with code `TIMEOUT` and a message containing the numeric timeout
value; on the async paths the child is killed and then reaped (the trace
ends `spawned, killed, waited`) before the error is raised. -/
theorem c5_timeout (env : BridgeEnv) (parse : String → Option Json)
    (command : String) (args : List String) (timeout : Int) (npx : String)
    (hn : env.whichNpx = some npx)
    (ht : env.spawn (buildCmd npx command args) = SpawnBehavior.timedOut) :
    lcRunCli env parse command args timeout =
      (BridgeOutcome.err (Json.str "TIMEOUT") (Json.str (lcTimeoutMsg timeout)),
        [Event.spawned (buildCmd npx command args)]) ∧
    lcAsyncRunCli env parse command args timeout =
      (BridgeOutcome.err (Json.str "TIMEOUT") (Json.str (lcTimeoutMsg timeout)),
        [Event.spawned (buildCmd npx command args), Event.killed, Event.waited]) ∧
    cwRunCli env parse command args timeout =
      (BridgeOutcome.err (Json.str "TIMEOUT") (Json.str (cwTimeoutMsg timeout)),
        [Event.spawned (buildCmd npx command args)]) ∧
    cwAsyncRunCli env parse command args timeout =
      (BridgeOutcome.err (Json.str "TIMEOUT") (Json.str (cwTimeoutMsg timeout)),
        [Event.spawned (buildCmd npx command args), Event.killed, Event.waited]) ∧
    containsStr (lcTimeoutMsg timeout) (toString timeout) ∧
    containsStr (cwTimeoutMsg timeout) (toString timeout) := by
  refine ⟨?_, ?_, ?_, ?_,
    ⟨"BoltzPay CLI command timed out after ", " seconds", rfl⟩,
    ⟨"CLI command timed out after ", "s", rfl⟩⟩ <;>
    simp [lcRunCli, lcAsyncRunCli, cwRunCli, cwAsyncRunCli, hn, ht]

/-- Witness for C5 in a concrete environment where every spawn times
out. -/
theorem c5_timeout_witness :
    lcRunCli envTimeout parseNone "check" ["https://x"] 30 =
      (BridgeOutcome.err (Json.str "TIMEOUT") (Json.str (lcTimeoutMsg 30)),
        [Event.spawned (buildCmd "/usr/local/bin/npx" "check" ["https://x"])]) ∧
    lcAsyncRunCli envTimeout parseNone "check" ["https://x"] 30 =
      (BridgeOutcome.err (Json.str "TIMEOUT") (Json.str (lcTimeoutMsg 30)),
        [Event.spawned (buildCmd "/usr/local/bin/npx" "check" ["https://x"]),
         Event.killed, Event.waited]) ∧
    cwRunCli envTimeout parseNone "check" ["https://x"] 30 =
      (BridgeOutcome.err (Json.str "TIMEOUT") (Json.str (cwTimeoutMsg 30)),
        [Event.spawned (buildCmd "/usr/local/bin/npx" "check" ["https://x"])]) ∧
    cwAsyncRunCli envTimeout parseNone "check" ["https://x"] 30 =
      (BridgeOutcome.err (Json.str "TIMEOUT") (Json.str (cwTimeoutMsg 30)),
        [Event.spawned (buildCmd "/usr/local/bin/npx" "check" ["https://x"]),
         Event.killed, Event.waited]) ∧
    containsStr (lcTimeoutMsg 30) (toString (30 : Int)) ∧
    containsStr (cwTimeoutMsg 30) (toString (30 : Int)) :=
  c5_timeout envTimeout parseNone "check" ["https://x"] 30 "/usr/local/bin/npx" rfl rfl

/-- C6 (round-trip): a well-formed success envelope that the bridge
treats as success is returned as the parsed value itself — the langchain
bridge always, the crewai bridge when the exit code is zero — so its
`data`, `payment` and `metadata` entries are returned unchanged. -/
theorem c6_roundtrip (parse : String → Option Json) (r : ProcOutcome) (j : Json)
    (hj : isSuccessEnvelope j = true)
    (hs : parse (pyStrip r.stdout) = some j)
    (hr : parse r.stdout = some j) :
    lcParseOutcome parse r = BridgeOutcome.ok j ∧
    (r.returncode = 0 → cwParseOutcome parse r = BridgeOutcome.ok j) := by
  obtain ⟨fields, rfl, hsucc, herr⟩ := isSuccessEnvelope_elim hj
  exact ⟨by simp [lcParseOutcome, hs, hsucc],
    fun h0 => by simp [cwParseOutcome, h0, hr]⟩

/-- Witness for C6 at a concrete success envelope and exit code 0. -/
theorem c6_roundtrip_witness :
    isSuccessEnvelope successEnvelope0 = true ∧
    (lcParseOutcome parseSuccess0 ⟨0, "s", ""⟩ = BridgeOutcome.ok successEnvelope0 ∧
     ((0 : Int) = 0 →
       cwParseOutcome parseSuccess0 ⟨0, "s", ""⟩ = BridgeOutcome.ok successEnvelope0)) :=
  ⟨rfl, c6_roundtrip parseSuccess0 ⟨0, "s", ""⟩ successEnvelope0 rfl rfl rfl⟩

/-- C7: the CLI argument lists built by all seven tool adapters, in both
packages, are the documented pure functions of the validated inputs:
`fetch` yields `[url, "--method", method]` with `["--chain", chain]`
appended for a provided (non-empty) chain, `check` and `quote` yield
`[url]`, `discover` yields `[]` with `["--category", category]` appended
for a provided (non-empty) category, and `budget`, `history`, `wallet`
yield `[]`; the two packages build identical lists. -/
theorem c7_argument_mappings (url method c : String) (hc : c ≠ "") :
    lcFetchArgs url method none = [url, "--method", method] ∧
    lcFetchArgs url method (some c) = [url, "--method", method, "--chain", c] ∧
    lcCheckArgs url = [url] ∧
    lcQuoteArgs url = [url] ∧
    lcDiscoverArgs none = [] ∧
    lcDiscoverArgs (some c) = ["--category", c] ∧
    lcBudgetArgs = [] ∧
    lcHistoryArgs = [] ∧
    lcWalletArgs = [] ∧
    cwFetchArgs url method none = lcFetchArgs url method none ∧
    cwFetchArgs url method (some c) = lcFetchArgs url method (some c) ∧
    cwCheckArgs url = [url] ∧
    cwQuoteArgs url = [url] ∧
    cwDiscoverArgs none = [] ∧
    cwDiscoverArgs (some c) = ["--category", c] ∧
    cwBudgetArgs = [] ∧
    cwHistoryArgs = [] ∧
    cwWalletArgs = [] := by
  refine ⟨rfl, ?_, rfl, rfl, rfl, ?_, rfl, rfl, rfl, rfl, ?_, rfl, rfl, rfl, ?_, rfl, rfl, rfl⟩ <;>
    simp [lcFetchArgs, cwFetchArgs, lcDiscoverArgs, cwDiscoverArgs, hc]

/-- Witness for C7 at the spec's §8 example inputs. -/
theorem c7_argument_mappings_witness :
    lcFetchArgs "https://x/api" "GET" none = ["https://x/api", "--method", "GET"] ∧
    lcFetchArgs "https://x/api" "GET" (some "svm") =
      ["https://x/api", "--method", "GET", "--chain", "svm"] ∧
    lcCheckArgs "https://x/api" = ["https://x/api"] ∧
    lcQuoteArgs "https://x/api" = ["https://x/api"] ∧
    lcDiscoverArgs none = [] ∧
    lcDiscoverArgs (some "svm") = ["--category", "svm"] ∧
    lcBudgetArgs = [] ∧
    lcHistoryArgs = [] ∧
    lcWalletArgs = [] ∧
    cwFetchArgs "https://x/api" "GET" none = lcFetchArgs "https://x/api" "GET" none ∧
    cwFetchArgs "https://x/api" "GET" (some "svm") =
      lcFetchArgs "https://x/api" "GET" (some "svm") ∧
    cwCheckArgs "https://x/api" = ["https://x/api"] ∧
    cwQuoteArgs "https://x/api" = ["https://x/api"] ∧
    cwDiscoverArgs none = [] ∧
    cwDiscoverArgs (some "svm") = ["--category", "svm"] ∧
    cwBudgetArgs = [] ∧
    cwHistoryArgs = [] ∧
    cwWalletArgs = [] :=
  c7_argument_mappings "https://x/api" "GET" "svm" (by decide)

/-- C8: for every command and argument list, the spawned command line is
exactly `[npx, "-y", "@boltzpay/cli", command, ...args, "--json"]`, with
`"--json"` appended by the bridge itself as the last element. -/
theorem c8_command_line (npx command : String) (args : List String) :
    buildCmd npx command args =
      [npx, "-y", "@boltzpay/cli", command] ++ args ++ ["--json"] ∧
    (buildCmd npx command args).getLast? = some "--json" := by
  refine ⟨rfl, ?_⟩
  show ([npx, "-y", "@boltzpay/cli", command] ++ args ++ ["--json"]).getLast? = some "--json"
  rw [List.append_assoc, ← List.append_assoc]
  exact List.getLast?_concat _

theorem strAppendEmpty (s : String) : s ++ "" = s := by
  cases s with
  | mk l => show String.mk (l ++ []) = String.mk l; rw [List.append_nil]

/-- C9 counterexample: the claim says every Bridge failure's user-visible
text includes both the code and the message; but a
`langchain_boltzpay` `CLI_ERROR` failure (unparseable stdout, stderr
`"boom"`) has string form `"boom"` — the message alone, which does not
contain the code `"CLI_ERROR"`. -/
theorem c9_langchain_str_form_lacks_code :
    lcParseOutcome parseNone ⟨1, "notjson", "boom"⟩ =
      BridgeOutcome.err (Json.str "CLI_ERROR") (Json.str "boom") ∧
    lcErrorStrForm "CLI_ERROR" "boom" = "boom" ∧
    ¬ containsStr (lcErrorStrForm "CLI_ERROR" "boom") "CLI_ERROR" :=
  ⟨rfl, rfl, not_containsStr_of_longer (by decide)⟩

/-- C9 (amended): in the crewai package the user-visible error text
includes both code and message — the error's string form is
`"{code}: {message}"` and the adapter's returned string is
`"Error ({code}): {message}"` — while in the langchain package the
string form of a raised `BoltzPayBridgeError` is the message alone, so it
includes the code only when the message happens to contain it. -/
theorem c9_error_text_forms (code message : String) :
    cwErrorStrForm code message = code ++ ": " ++ message ∧
    containsStr (cwErrorStrForm code message) code ∧
    containsStr (cwErrorStrForm code message) message ∧
    cwSafeRunErrorText code message = "Error (" ++ code ++ "): " ++ message ∧
    containsStr (cwSafeRunErrorText code message) code ∧
    containsStr (cwSafeRunErrorText code message) message ∧
    lcErrorStrForm code message = message :=
  ⟨rfl,
   ⟨"", ": " ++ message, String.append_assoc code ": " message⟩,
   ⟨code ++ ": ", "", (strAppendEmpty _).symm⟩,
   rfl,
   ⟨"Error (", "): " ++ message, String.append_assoc ("Error (" ++ code) "): " message⟩,
   ⟨"Error (" ++ code ++ "): ", "", (strAppendEmpty _).symm⟩,
   rfl⟩

/-- C10: the optional `--chain` and `--category` flags are appended by
string truthiness, not by presence — in both packages, `fetch` with
`chain=""` and `discover` with `category=""` build the same argument
lists as with `None`. -/
theorem c10_empty_string_flags (url method : String) :
    lcFetchArgs url method (some "") = lcFetchArgs url method none ∧
    lcFetchArgs url method (some "") = [url, "--method", method] ∧
    cwFetchArgs url method (some "") = cwFetchArgs url method none ∧
    cwFetchArgs url method (some "") = [url, "--method", method] ∧
    lcDiscoverArgs (some "") = [] ∧
    lcDiscoverArgs (some "") = lcDiscoverArgs none ∧
    cwDiscoverArgs (some "") = [] ∧
    cwDiscoverArgs (some "") = cwDiscoverArgs none :=
  ⟨rfl, rfl, rfl, rfl, rfl, rfl, rfl, rfl⟩
